import Mathlib

/-!
Verification of the course-catalog scraper (`scraper.py`).

The development shallowly embeds the scraper: pages fetched over HTTP are
modelled as explicit data (a `BasePage`, `CategoryPage`s and `SubjectPage`s
reachable through URL-indexed maps), the course parser
`extract_course_info` is a pure function over a `CourseElem` record, and
the orchestrator `main` becomes a fold over the three-level traversal with
an explicit `ScrapeState` (staged counter, pending batch, known-code set,
and the list of batches handed to the database).  Python exceptions are
embedded as `Except PyErr`; a `try/except` block becomes a `match` on the
`Except` value.

Modelling conventions:
* `BeautifulSoup.find` returning `None` followed by an attribute access is
  the `AttributeError` case; an HTTP error from `raise_for_status` (or the
  GET itself) is the `requestError` case.
* Course elements carry the text of their sub-elements directly; the
  required title sub-elements (`course_code` spans, `course_codetitle`,
  `course_credits`) are always present in a `CourseElem`, while the
  optional description and `courseblockextra` blocks are `Option`s.
* URL resolution (`urllib.parse.urljoin`) is an external collaborator and
  is modelled as the identity on the already-absolute hrefs that appear in
  the modelled pages.
* `random`/`time.sleep`/logging have no effect on the data flow and are
  omitted.
-/

/-- Python's whitespace class as used by the scraper: the regex
`[\s\xa0]+` of `re.sub` and the default strip set of `str.strip()`,
restricted to the concrete whitespace characters that can occur in the
catalog texts (ASCII whitespace plus the non-breaking space `\xa0`). -/
def py_isspace (c : Char) : Bool :=
  c == ' ' || c == '\t' || c == '\n' || c == '\r' || c == '\x0b' || c == '\x0c' || c == '\xa0'

/-- Python's `str.isnumeric` restricted to the ASCII range occurring in
credit texts, where it coincides with being a decimal digit. -/
def py_isnumeric (c : Char) : Bool :=
  c.isDigit

/-- One pass of `str.strip()`: drop leading and trailing whitespace. -/
def strip_chars (l : List Char) : List Char :=
  ((l.dropWhile py_isspace).reverse.dropWhile py_isspace).reverse

/-- Python `s.strip()` (also the effect of `get_text(strip=True)` on a
single text node). -/
def py_strip (s : String) : String :=
  ⟨strip_chars s.toList⟩

/-- `re.sub(r'[\s\xa0]+', ' ', text)`: every maximal run of whitespace
characters is replaced by a single space.  The boolean argument records
whether the previous character belonged to a whitespace run. -/
def collapse_go : Bool → List Char → List Char
  | _, [] => []
  | inRun, c :: rest =>
    if py_isspace c then
      if inRun then collapse_go true rest else ' ' :: collapse_go true rest
    else c :: collapse_go false rest

/-- `re.sub(r'[\s\xa0]+', ' ', text)` on a string. -/
def collapse_ws (s : String) : String :=
  ⟨collapse_go false s.toList⟩

/-- `n` is a leading segment of `h` (character lists). -/
def leads : List Char → List Char → Bool
  | [], _ => true
  | _ :: _, [] => false
  | a :: as, b :: bs => a == b && leads as bs

/-- `n` occurs as a contiguous segment of `h`. -/
def has_seg (n : List Char) : List Char → Bool
  | [] => n.isEmpty
  | c :: rest => leads n (c :: rest) || has_seg n rest

/-- Python's substring test `needle in hay`. -/
def py_in (needle hay : String) : Bool :=
  has_seg needle.toList hay.toList

/-- Python's `s.startswith(p)`. -/
def py_startswith (p s : String) : Bool :=
  leads p.toList s.toList

/-- The credit-scanning loop of `extract_course_info` (lines 88-94):
walk the text from the start, keep consecutive numeric characters, stop at
the first non-numeric one. -/
def credit_scan_chars : List Char → List Char
  | [] => []
  | c :: rest => if py_isnumeric c then c :: credit_scan_chars rest else []

/-- `credit_hours` as computed from the credit text. -/
def credit_scan (s : String) : String :=
  ⟨credit_scan_chars s.toList⟩

/-- One course block (`div.courseblock`), with the texts of its
sub-elements.  The title sub-elements are required (their absence would be
an unhandled structural error, outside the modelled pages); the
description block and the `courseblockextra` block are optional:
`descPara = none` means no `courseblockdesc` div, `some none` means the
div exists but holds no `<p>`, `some (some t)` is the text of its first
`<p>`.  `extraParas = none` means no `courseblockextra` div, `some ts`
lists the texts of its `<p>` elements (possibly empty). -/
structure CourseElem where
  codeSpans : List String
  nameText : String
  creditText : String
  descPara : Option (Option String)
  extraParas : Option (List String)
deriving DecidableEq, Repr

/-- One parsed course record, the 5-tuple returned by
`extract_course_info` with the field names used at the staging site in
`main`. -/
structure CourseRecord where
  code : String
  name : String
  credits : String
  description : String
  attributes : String
deriving DecidableEq, Repr

/-- The attribute-paragraph loop (lines 104-108): keep paragraphs whose
raw text does not contain `"Objective"`, collapse whitespace runs and
strip each kept paragraph. -/
def attr_clean_list : List String → List String
  | [] => []
  | t :: rest =>
    if py_in "Objective" t then attr_clean_list rest
    else py_strip (collapse_ws t) :: attr_clean_list rest

/-- `extract_course_info` (lines 81-113): code is the space-join of the
code spans, name and credit text are `get_text(strip=True)`, credit hours
come from the scanning loop, the description defaults to `"N/A"` when the
block or its paragraph is missing (the `try/except` at lines 96-99), and
the attributes are the `", "`-join of the cleaned qualifying paragraphs
with one trailing space, defaulting to `"N/A"` only when the
`courseblockextra` block itself is missing (the `try/except` at lines
101-111). -/
def extract_course_info (course : CourseElem) : CourseRecord :=
  let code := String.intercalate " " course.codeSpans
  let name := py_strip course.nameText
  let credit_text := py_strip course.creditText
  let credit_hours := credit_scan credit_text
  let description :=
    match course.descPara with
    | some (some p) => py_strip p
    | _ => "N/A"
  let attributes :=
    match course.extraParas with
    | none => "N/A"
    | some paras => String.intercalate ", " (attr_clean_list paras) ++ " "
  ⟨code, name, credit_hours, description, attributes⟩

/-- The two kinds of Python exceptions reaching the orchestrator's
handlers: `AttributeError` from a `find` that returned `None`, and
`requests` errors from the GET / `raise_for_status`. -/
inductive PyErr where
  | attributeError
  | requestError
deriving DecidableEq, Repr

/-- The base catalog page: whether the GET failed, and the category
`<ul id='/university-course-descriptions/'>` (absent or a list of `<li>`
items, each item carrying the href of its link when it has one). -/
structure BasePage where
  httpError : Bool
  catList : Option (List (Option String))
deriving DecidableEq

/-- A category page: whether the GET failed, and the
`div.az_sitemap` container (absent, or a list of `<ul>` groups each a
list of `<li>` items carrying the optional href of their link). -/
structure CategoryPage where
  httpError : Bool
  sitemap : Option (List (List (Option String)))
deriving DecidableEq

/-- A subject page: whether the GET failed, and the
`div.sc_sccoursedescs` container (absent, or its `div.courseblock`
children). -/
structure SubjectPage where
  httpError : Bool
  container : Option (List CourseElem)
deriving DecidableEq

/-- The remote site: the base page plus the pages the category and
subject URLs resolve to. -/
structure Site where
  base : BasePage
  catAt : String → CategoryPage
  subjAt : String → SubjectPage

/-- `fetch_category_links` (lines 28-48): on a request error the
exception is caught and `[]` returned; a missing category list yields
`[]`; otherwise the hrefs of the `<li>` items that have a link. -/
def fetch_category_links (p : BasePage) : List String :=
  if p.httpError then []
  else
    match p.catList with
    | none => []
    | some lis => lis.filterMap id

/-- The `try` body of `fetch_subject_links` (lines 54-65): a failed GET
raises a request error, a missing `az_sitemap` container raises
`AttributeError`, otherwise the hrefs of all linked `<li>` items across
all `<ul>` groups whose href does not start with `#`. -/
def fetch_subject_links_try (c : CategoryPage) : Except PyErr (List String) :=
  if c.httpError then .error .requestError
  else
    match c.sitemap with
    | none => .error .attributeError
    | some uls =>
      .ok (uls.foldr (fun ul acc =>
        (ul.filterMap (fun li =>
          match li with
          | none => none
          | some h => if py_startswith "#" h then none else some h)) ++ acc) [])

/-- `fetch_subject_links` (lines 50-71): the whole body runs under
`try/except`; both the `HTTPError` handler and the catch-all `Exception`
handler log and return `[]`, so the function never lets an exception
reach its caller. -/
def fetch_subject_links (c : CategoryPage) : Except PyErr (List String) :=
  match fetch_subject_links_try c with
  | .ok links => .ok links
  | .error _ => .ok []

/-- `fetch_courses` (lines 73-79): no `try/except` — a failed GET raises
a request error and a missing `sc_sccoursedescs` container raises
`AttributeError`, both propagating to the caller. -/
def fetch_courses (p : SubjectPage) : Except PyErr (List CourseElem) :=
  if p.httpError then .error .requestError
  else
    match p.container with
    | none => .error .attributeError
    | some cs => .ok cs

/-- `BATCH_SIZE` (line 130). -/
def BATCH_SIZE : Nat := 100

/-- The orchestrator's mutable state: the `counter` of staged records,
the pending `batch`, the `existing_codes` dedup set (modelled as a list
queried only through membership), and the batches handed to
`insert_courses` so far, in order. -/
structure ScrapeState where
  counter : Nat
  batch : List CourseRecord
  existing_codes : List String
  flushed : List (List CourseRecord)
deriving DecidableEq

/-- `insert_courses` + `conn.commit()` (lines 115-120, 163-164, 178-179),
modelled as recording the executed batch. -/
def insert_courses (flushed : List (List CourseRecord)) (batch : List CourseRecord) :
    List (List CourseRecord) :=
  flushed ++ [batch]

/-- The staging step (lines 154-160): skip when the code is already
known, otherwise append the record to the batch, bump the counter and add
the code to the known set. -/
def stage (st : ScrapeState) (r : CourseRecord) : ScrapeState :=
  if r.code ∈ st.existing_codes then st
  else
    { st with
      batch := st.batch ++ [r]
      counter := st.counter + 1
      existing_codes := r.code :: st.existing_codes }

/-- The flush check after each course (lines 162-166): once the batch
reaches `BATCH_SIZE`, insert it, commit, and clear the batch. -/
def flush_if_full (st : ScrapeState) : ScrapeState :=
  if BATCH_SIZE ≤ st.batch.length then
    { st with flushed := insert_courses st.flushed st.batch, batch := [] }
  else st

/-- Process one course block (lines 151-166): parse, stage, flush when
full. -/
def process_course (st : ScrapeState) (course : CourseElem) : ScrapeState :=
  flush_if_full (stage st (extract_course_info course))

/-- Process one subject (lines 146-170): a raised fetch error is caught
by the subject-level handler and the subject skipped with the state
unchanged; an empty course list logs and continues; otherwise each course
block is processed in order. -/
def process_subject (st : ScrapeState) (p : SubjectPage) : ScrapeState :=
  match fetch_courses p with
  | .error _ => st
  | .ok courses =>
    if courses = [] then st
    else courses.foldl process_course st

/-- The subject loop of one category (line 145). -/
def process_subjects (site : Site) (st : ScrapeState) (urls : List String) : ScrapeState :=
  urls.foldl (fun s u => process_subject s (site.subjAt u)) st

/-- Process one category (lines 142-175): fetch the subject links — an
error raised there would be caught by the category-level handlers with
the state unchanged — then run the subject loop. -/
def process_category (site : Site) (st : ScrapeState) (cp : CategoryPage) : ScrapeState :=
  match fetch_subject_links cp with
  | .error _ => st
  | .ok urls => process_subjects site st urls

/-- The category loop (line 142). -/
def process_categories (site : Site) (st : ScrapeState) (links : List String) : ScrapeState :=
  links.foldl (fun s u => process_category site s (site.catAt u)) st

/-- The traversal part of `main` (lines 134-175): start from a zero
counter, an empty batch and the codes preloaded from the store, and fold
the category loop over the fetched category links. -/
def run_traversal (site : Site) (initial_codes : List String) : ScrapeState :=
  process_categories site ⟨0, [], initial_codes, []⟩ (fetch_category_links site.base)

/-- The final-flush step (lines 177-180): when the batch is non-empty,
insert it and commit (the batch list itself is not cleared afterwards in
the source). -/
def flush_remainder (st : ScrapeState) : ScrapeState :=
  if st.batch = [] then st
  else { st with flushed := insert_courses st.flushed st.batch }

/-- `main` (lines 122-182) as a function from the site and the preloaded
codes to the final orchestrator state. -/
def run_main (site : Site) (initial_codes : List String) : ScrapeState :=
  flush_remainder (run_traversal site initial_codes)

/-- The course codes a subject page contributes to the traversal: none
when fetching its courses fails, otherwise the parsed code of each course
block. -/
def subject_codes (p : SubjectPage) : List String :=
  match fetch_courses p with
  | .error _ => []
  | .ok cs => cs.map (fun c => (extract_course_info c).code)

/-- The course codes a category page contributes: the concatenation over
its subject links, in order. -/
def category_codes (site : Site) (cp : CategoryPage) : List String :=
  match fetch_subject_links cp with
  | .error _ => []
  | .ok urls => urls.foldr (fun u acc => subject_codes (site.subjAt u) ++ acc) []

/-- All course codes the traversal of the site yields, in order. -/
def all_codes (site : Site) : List String :=
  (fetch_category_links site.base).foldr
    (fun u acc => category_codes site (site.catAt u) ++ acc) []

/-- The state invariant maintained through the traversal: the pending
batch stays strictly below the threshold at loop boundaries, every batch
inserted so far held exactly `BATCH_SIZE` records, and the counter splits
into the inserted records plus the pending ones. -/
def BatchInv (st : ScrapeState) : Prop :=
  st.batch.length < BATCH_SIZE ∧
  (∀ b ∈ st.flushed, b.length = BATCH_SIZE) ∧
  st.counter = BATCH_SIZE * st.flushed.length + st.batch.length

/-! ### Demo pages and sites used as concrete witnesses -/

/-- A course block whose `courseblockextra` div is present but holds no
paragraphs. -/
def empty_extra_course : CourseElem :=
  ⟨["CS", "101"], "Intro", "3 Credits", none, some []⟩

/-- A subject page whose `sc_sccoursedescs` container is missing. -/
def bad_subject_page : SubjectPage := ⟨false, none⟩

/-- A subject page with one well-formed course block. -/
def good_subject_page : SubjectPage :=
  ⟨false, some [⟨["MATH", "200"], "Calculus", "3 Credits", some (some "Limits."), none⟩]⟩

/-- A category page whose `az_sitemap` container is missing. -/
def missing_sitemap_category : CategoryPage := ⟨false, none⟩

/-- A site whose category pages all lack the sitemap container and whose
subject URL "bad" resolves to a page without the course container. -/
def mixed_site : Site :=
  ⟨⟨false, some []⟩,
   fun _ => missing_sitemap_category,
   fun u => if u = "bad" then bad_subject_page else good_subject_page⟩

/-- First course block of the end-to-end scenario, parsing to code
"CS 101". -/
def cs101_first : CourseElem :=
  ⟨["CS", "101"], "Intro to Computing", "3 Credits", some (some "First course."), none⟩

/-- The in-page duplicate, also parsing to code "CS 101". -/
def cs101_dup : CourseElem :=
  ⟨["CS", "101"], "Intro to Computing", "3 Credits", none, none⟩

/-- Third course block of the scenario, parsing to code "MATH 200". -/
def math200 : CourseElem :=
  ⟨["MATH", "200"], "Calculus", "3 Credits", some (some "Limits."), some ["GenEd: GQ"]⟩

/-- A site with one category, one subject, and the three course blocks of
the end-to-end scenario in order. -/
def demo_site : Site :=
  ⟨⟨false, some [some "catA"]⟩,
   fun _ => ⟨false, some [[some "subjA"]]⟩,
   fun _ => ⟨false, some [cs101_first, cs101_dup, math200]⟩⟩

/-- A site whose initial GET of the base catalog URL fails. -/
def dead_site : Site :=
  ⟨⟨true, some [some "catA"]⟩, fun _ => missing_sitemap_category, fun _ => good_subject_page⟩

/-! ### Helper lemmas -/

/-- The credit-scanning loop computes the longest numeric head. -/
theorem credit_scan_chars_eq_takeWhile (l : List Char) :
    credit_scan_chars l = l.takeWhile py_isnumeric := by
  induction l with
  | nil => rfl
  | cons c rest ih =>
    by_cases h : py_isnumeric c <;> simp [credit_scan_chars, List.takeWhile_cons, h, ih]

/-- The attribute loop is filter-then-clean. -/
theorem attr_clean_list_eq_filter_map (ps : List String) :
    attr_clean_list ps =
      (ps.filter (fun t => !(py_in "Objective" t))).map (fun t => py_strip (collapse_ws t)) := by
  induction ps with
  | nil => rfl
  | cons t rest ih =>
    by_cases h : py_in "Objective" t <;> simp [attr_clean_list, List.filter_cons, h, ih]

/-- When every paragraph mentions "Objective", the attribute loop keeps
nothing. -/
theorem attr_clean_list_nil_of_all (ps : List String)
    (h : ∀ t ∈ ps, py_in "Objective" t = true) : attr_clean_list ps = [] := by
  induction ps with
  | nil => rfl
  | cons t rest ih =>
    simp only [attr_clean_list, h t (List.mem_cons_self t rest), if_true]
    exact ih fun t' ht' => h t' (List.mem_cons_of_mem _ ht')

/-! ### Claims about the course parser -/

/-- C4: for every credits text string, the extracted creditHours value is
exactly the maximal leading run of numeric characters of that string
(empty when the first character is non-numeric); in particular
"3 Credits" yields "3", "1-3 Credits" yields "1", and "Credits: 3"
yields "", and the parser's credits field is this scan applied to the
stripped credit text. -/
theorem credit_hours_is_leading_numeric_run :
    (∀ s : String, credit_scan s = ⟨s.toList.takeWhile py_isnumeric⟩) ∧
    (extract_course_info ⟨["CS", "101"], "Intro", "3 Credits", none, none⟩).credits = "3" ∧
    (extract_course_info ⟨["CS", "101"], "Intro", "1-3 Credits", none, none⟩).credits = "1" ∧
    (extract_course_info ⟨["CS", "101"], "Intro", "Credits: 3", none, none⟩).credits = "" ∧
    (∀ ce : CourseElem, (extract_course_info ce).credits = credit_scan (py_strip ce.creditText)) :=
  ⟨fun s => congrArg String.mk (credit_scan_chars_eq_takeWhile s.toList),
   by decide, by decide, by decide, fun _ => rfl⟩

/-- C9: the description field is the trimmed text of the first paragraph
of the description block when both exist, and the sentinel "N/A" when the
block or its paragraph is absent; the parser returns a record in every
case (absence is not an error). -/
theorem description_absent_is_na (ce : CourseElem) :
    ((ce.descPara = none ∨ ce.descPara = some none) →
      (extract_course_info ce).description = "N/A") ∧
    (∀ t, ce.descPara = some (some t) → (extract_course_info ce).description = py_strip t) := by
  constructor
  · rintro (h | h) <;> simp [extract_course_info, h]
  · intro t ht
    simp [extract_course_info, ht]

/-- Witness for C9 at concrete course elements. -/
theorem description_absent_is_na_witness :
    (extract_course_info ⟨["A"], "n", "c", none, none⟩).description = "N/A" ∧
    (extract_course_info ⟨["A"], "n", "c", some none, none⟩).description = "N/A" ∧
    (extract_course_info ⟨["A"], "n", "c", some (some " d "), none⟩).description =
      py_strip " d " :=
  ⟨(description_absent_is_na _).1 (Or.inl rfl),
   (description_absent_is_na _).1 (Or.inr rfl),
   (description_absent_is_na _).2 " d " rfl⟩

/-- C5 counterexample: the claim says a present-but-empty extra block
yields the sentinel "N/A"; the code joins the empty paragraph list and
appends the trailing space, yielding the single-space string " ". -/
theorem attributes_empty_block_is_space :
    (extract_course_info empty_extra_course).attributes = " " ∧
    ¬ (extract_course_info empty_extra_course).attributes = "N/A" := by
  exact ⟨rfl, by decide⟩

/-- C5 amended: the attributes field is the ", "-join of the qualifying
paragraphs (those not containing "Objective"), each whitespace-collapsed
and trimmed, with exactly one trailing space appended; the sentinel
"N/A" is produced only when the extra block is absent (a present-but-
empty block yields " "). -/
theorem attributes_field_formula (ce : CourseElem) :
    (ce.extraParas = none → (extract_course_info ce).attributes = "N/A") ∧
    (∀ ps, ce.extraParas = some ps →
      (extract_course_info ce).attributes =
        String.intercalate ", "
          ((ps.filter (fun t => !(py_in "Objective" t))).map
            (fun t => py_strip (collapse_ws t))) ++ " ") := by
  constructor
  · intro h
    simp [extract_course_info, h]
  · intro ps hps
    simp [extract_course_info, hps, attr_clean_list_eq_filter_map]

/-- Witness for C5's amended claim: the absent case and the
non-breaking-space example paragraph. -/
theorem attributes_field_formula_witness :
    (extract_course_info ⟨["A"], "n", "c", none, none⟩).attributes = "N/A" ∧
    (extract_course_info ⟨["A"], "n", "c", none,
        some ["Prerequisite: X\xa0\xa0Y"]⟩).attributes =
      String.intercalate ", "
        (((["Prerequisite: X\xa0\xa0Y"] : List String).filter
            (fun t => !(py_in "Objective" t))).map
          (fun t => py_strip (collapse_ws t))) ++ " " :=
  ⟨(attributes_field_formula _).1 rfl, (attributes_field_formula _).2 _ rfl⟩

/-- C6: when the extra block is present and every paragraph contains
"Objective", all paragraphs are filtered out and the attributes field is
the single-space string " ", not the sentinel "N/A". -/
theorem attributes_all_objective_is_space (ce : CourseElem) (ps : List String)
    (h1 : ce.extraParas = some ps) (h2 : ∀ t ∈ ps, py_in "Objective" t = true) :
    (extract_course_info ce).attributes = " " ∧
    ¬ (extract_course_info ce).attributes = "N/A" := by
  have hnil := attr_clean_list_nil_of_all ps h2
  constructor
  · simp [extract_course_info, h1, hnil]
    rfl
  · simp [extract_course_info, h1, hnil]
    decide

/-! ### Orchestrator helper lemmas -/

/-- Staging a record whose code is already known leaves the state
unchanged. -/
theorem stage_mem (st : ScrapeState) (r : CourseRecord)
    (h : r.code ∈ st.existing_codes) : stage st r = st := by
  simp [stage, h]

/-- Staging a record with a fresh code appends it to the batch, bumps the
counter, and adds the code to the known set. -/
theorem stage_not_mem (st : ScrapeState) (r : CourseRecord)
    (h : r.code ∉ st.existing_codes) :
    stage st r =
      { st with
        batch := st.batch ++ [r]
        counter := st.counter + 1
        existing_codes := r.code :: st.existing_codes } := by
  simp [stage, h]

/-- No flush below the threshold. -/
theorem flush_if_full_lt (st : ScrapeState) (h : st.batch.length < BATCH_SIZE) :
    flush_if_full st = st := by
  rw [flush_if_full, if_neg (by omega)]

/-- A flush at exactly the threshold. -/
theorem flush_if_full_eq (st : ScrapeState) (h : st.batch.length = BATCH_SIZE) :
    flush_if_full st =
      { st with flushed := insert_courses st.flushed st.batch, batch := [] } := by
  rw [flush_if_full, if_pos (by omega)]

/-- A predicate preserved by each step of a fold is preserved by the
fold. -/
theorem foldl_pres {α : Type} (P : ScrapeState → Prop) (f : ScrapeState → α → ScrapeState)
    (hf : ∀ st a, P st → P (f st a)) :
    ∀ (l : List α) (st : ScrapeState), P st → P (l.foldl f st) := by
  intro l
  induction l with
  | nil => exact fun st h => h
  | cons a t ih => exact fun st h => ih (f st a) (hf st a h)

/-- As `foldl_pres`, with the step hypothesis available only for members
of the folded list. -/
theorem foldl_pres_mem {α : Type} (P : ScrapeState → Prop) (f : ScrapeState → α → ScrapeState) :
    ∀ (l : List α), (∀ st a, a ∈ l → P st → P (f st a)) →
      ∀ st : ScrapeState, P st → P (l.foldl f st) := by
  intro l
  induction l with
  | nil => exact fun _ st h => h
  | cons a t ih =>
    intro hf st h
    exact ih (fun st' b hb => hf st' b (List.mem_cons_of_mem _ hb)) (f st a)
      (hf st a (List.mem_cons_self a t) h)

/-! ### Claims about the error boundaries -/

/-- C7: a missing course-description container makes `fetch_courses`
fail (it is not caught inside the extractor), the per-subject boundary in
the orchestrator skips the whole subject with the state unchanged (no
partial records staged), and processing continues with the next subject.
-/
theorem missing_course_container_fatal :
    (∀ p : SubjectPage, p.httpError = false → p.container = none →
      fetch_courses p = Except.error PyErr.attributeError) ∧
    (∀ (st : ScrapeState) (p : SubjectPage) (e : PyErr),
      fetch_courses p = Except.error e → process_subject st p = st) ∧
    (∀ (site : Site) (st : ScrapeState) (u : String) (us : List String) (e : PyErr),
      fetch_courses (site.subjAt u) = Except.error e →
      process_subjects site st (u :: us) = process_subjects site st us) := by
  refine ⟨?_, ?_, ?_⟩
  · intro p h1 h2
    simp [fetch_courses, h1, h2]
  · intro st p e h
    simp [process_subject, h]
  · intro site st u us e h
    simp [process_subjects, process_subject, h]

/-- Witness for C7: the missing container fails the fetch, the subject
boundary absorbs it, and the fold over subjects goes on to the next URL.
-/
theorem missing_course_container_fatal_witness :
    fetch_courses bad_subject_page = Except.error PyErr.attributeError ∧
    process_subject ⟨0, [], [], []⟩ bad_subject_page = ⟨0, [], [], []⟩ ∧
    process_subjects mixed_site ⟨0, [], [], []⟩ ["bad", "good"] =
      process_subjects mixed_site ⟨0, [], [], []⟩ ["good"] :=
  ⟨missing_course_container_fatal.1 bad_subject_page rfl rfl,
   missing_course_container_fatal.2.1 _ bad_subject_page PyErr.attributeError rfl,
   missing_course_container_fatal.2.2 mixed_site _ "bad" ["good"] PyErr.attributeError rfl⟩

/-- C8 counterexample: on a category page without the `az_sitemap`
container the missing-container error is raised inside the extractor's
`try` body, but `fetch_subject_links` itself catches it and returns a
normal empty list — the caller receives `ok []`, not an error. -/
theorem subject_link_error_not_propagated :
    fetch_subject_links_try missing_sitemap_category =
      Except.error PyErr.attributeError ∧
    fetch_subject_links missing_sitemap_category = Except.ok [] :=
  ⟨rfl, rfl⟩

/-- C8 amended: on a missing sitemap container the extractor's `try` body
fails, the extractor's own handler catches the error and returns an empty
subject list, so the caller sees no error; the category then contributes
nothing and the traversal continues with the next category. -/
theorem subject_link_error_caught_internally (cp : CategoryPage)
    (h1 : cp.httpError = false) (h2 : cp.sitemap = none) :
    fetch_subject_links_try cp = Except.error PyErr.attributeError ∧
    fetch_subject_links cp = Except.ok [] ∧
    (∀ (site : Site) (st : ScrapeState), process_category site st cp = st) ∧
    (∀ (site : Site) (st : ScrapeState) (u : String) (us : List String),
      site.catAt u = cp →
      process_categories site st (u :: us) = process_categories site st us) := by
  have htry : fetch_subject_links_try cp = Except.error PyErr.attributeError := by
    simp [fetch_subject_links_try, h1, h2]
  have hfull : fetch_subject_links cp = Except.ok [] := by
    simp [fetch_subject_links, htry]
  refine ⟨htry, hfull, ?_, ?_⟩
  · intro site st
    simp [process_category, hfull, process_subjects]
  · intro site st u us hu
    simp [process_categories, hu, process_category, hfull, process_subjects]

/-- Witness for C8's amended claim on `mixed_site`, every category page
of which lacks the sitemap container. -/
theorem subject_link_error_caught_internally_witness :
    fetch_subject_links missing_sitemap_category = Except.ok [] ∧
    process_category mixed_site ⟨0, [], [], []⟩ missing_sitemap_category = ⟨0, [], [], []⟩ ∧
    process_categories mixed_site ⟨0, [], [], []⟩ ["c1", "c2"] =
      process_categories mixed_site ⟨0, [], [], []⟩ ["c2"] :=
  ⟨(subject_link_error_caught_internally missing_sitemap_category rfl rfl).2.1,
   (subject_link_error_caught_internally missing_sitemap_category rfl rfl).2.2.1 mixed_site _,
   (subject_link_error_caught_internally missing_sitemap_category rfl rfl).2.2.2
     mixed_site _ "c1" ["c2"] rfl⟩

/-- Witness for C6 at a concrete course element. -/
theorem attributes_all_objective_is_space_witness :
    (extract_course_info ⟨["A"], "n", "c", none,
        some ["Learning Objective 1"]⟩).attributes = " " ∧
    ¬ (extract_course_info ⟨["A"], "n", "c", none,
        some ["Learning Objective 1"]⟩).attributes = "N/A" :=
  attributes_all_objective_is_space _ _ rfl (by decide)

/-- Membership in a fold of appended contributions comes from membership
in one contribution. -/
theorem mem_foldr_append {α : Type} (g : α → List String) (l : List α) (u : α)
    (c : String) (hu : u ∈ l) (hc : c ∈ g u) :
    c ∈ l.foldr (fun a acc => g a ++ acc) [] := by
  induction l with
  | nil => cases hu
  | cons a t ih =>
    rcases List.mem_cons.mp hu with h | h
    · subst h
      exact List.mem_append.mpr (Or.inl hc)
    · exact List.mem_append.mpr (Or.inr (ih h))

/-- Processing a course whose code is already known, from a state with an
empty batch, changes nothing. -/
theorem process_course_noop (st : ScrapeState) (c : CourseElem)
    (h : (extract_course_info c).code ∈ st.existing_codes) (hb : st.batch = []) :
    process_course st c = st := by
  rw [process_course, stage_mem st _ h, flush_if_full_lt st (by simp [hb, BATCH_SIZE])]

/-! ### The batch invariant -/

/-- The initial orchestrator state satisfies the invariant. -/
theorem batch_inv_init (codes : List String) : BatchInv ⟨0, [], codes, []⟩ :=
  ⟨by norm_num [BATCH_SIZE], by simp, by simp⟩

/-- Processing one course preserves the batch invariant. -/
theorem process_course_inv (st : ScrapeState) (c : CourseElem) (h : BatchInv st) :
    BatchInv (process_course st c) := by
  obtain ⟨h1, h2, h3⟩ := h
  by_cases hm : (extract_course_info c).code ∈ st.existing_codes
  · rw [process_course, stage_mem st _ hm, flush_if_full_lt st h1]
    exact ⟨h1, h2, h3⟩
  · rw [process_course, stage_not_mem st _ hm]
    by_cases hl : st.batch.length + 1 = BATCH_SIZE
    · rw [flush_if_full_eq _ (by simp; omega)]
      refine ⟨?_, ?_, ?_⟩
      · simp [BATCH_SIZE]
      · intro b hb
        simp only [insert_courses, List.mem_append, List.mem_singleton] at hb
        rcases hb with hb | hb
        · exact h2 b hb
        · subst hb; simp; omega
      · simp only [BATCH_SIZE] at h3 hl ⊢
        simp [insert_courses]
        omega
    · rw [flush_if_full_lt _ (by simp; omega)]
      refine ⟨by simp; omega, h2, ?_⟩
      simp
      omega

/-- Processing one subject preserves the batch invariant. -/
theorem process_subject_inv (st : ScrapeState) (p : SubjectPage) (h : BatchInv st) :
    BatchInv (process_subject st p) := by
  unfold process_subject
  cases hfc : fetch_courses p with
  | error e => exact h
  | ok cs =>
    show BatchInv (if cs = [] then st else List.foldl process_course st cs)
    by_cases hcs : cs = []
    · rw [if_pos hcs]; exact h
    · rw [if_neg hcs]
      exact foldl_pres BatchInv process_course process_course_inv cs st h

/-- Processing one category preserves the batch invariant. -/
theorem process_category_inv (site : Site) (st : ScrapeState) (cp : CategoryPage)
    (h : BatchInv st) : BatchInv (process_category site st cp) := by
  unfold process_category
  cases hfs : fetch_subject_links cp with
  | error e => exact h
  | ok urls =>
    exact foldl_pres BatchInv _
      (fun st' u h' => process_subject_inv st' (site.subjAt u) h') urls st h

/-- The traversal's final state satisfies the batch invariant. -/
theorem run_traversal_inv (site : Site) (codes : List String) :
    BatchInv (run_traversal site codes) :=
  foldl_pres BatchInv _
    (fun st u h => process_category_inv site st (site.catAt u) h)
    (fetch_category_links site.base) _ (batch_inv_init codes)

/-! ### The end-to-end scenario -/

/-- C1: on the one-category / one-subject site with course codes
"CS 101", "CS 101", "MATH 200" and the code "CS 101" preloaded, exactly
one record is staged — counted once and appended to the batch — namely
the "MATH 200" record; and in general staging skips a record whose code
is already known, and otherwise inserts the code into the known set and
appends the record to the batch. -/
theorem one_new_record_staged :
    (run_traversal demo_site ["CS 101"]).counter = 1 ∧
    (run_traversal demo_site ["CS 101"]).batch = [extract_course_info math200] ∧
    (extract_course_info math200).code = "MATH 200" ∧
    (∀ (st : ScrapeState) (r : CourseRecord),
      r.code ∈ st.existing_codes → stage st r = st) ∧
    (∀ (st : ScrapeState) (r : CourseRecord),
      r.code ∉ st.existing_codes → stage st r =
        { st with
          batch := st.batch ++ [r]
          counter := st.counter + 1
          existing_codes := r.code :: st.existing_codes }) :=
  ⟨by decide, by decide, by decide, stage_mem, stage_not_mem⟩

/-- C2: every batch inserted during the traversal holds exactly
`BATCH_SIZE = 100` records (a flush happens exactly when the batch
reaches the threshold, hence exactly every 100 staged records); the
pending batch never exceeds the threshold even between staging and the
flush check; after the traversal the pending batch holds exactly
`total_staged mod 100` records and the final flush inserts exactly those,
being skipped when the remainder is empty; and when no flush happened
during the traversal the remainder is all staged records. -/
theorem batch_flush_discipline (site : Site) (codes : List String) :
    (∀ b ∈ (run_traversal site codes).flushed, b.length = BATCH_SIZE) ∧
    (run_traversal site codes).batch.length =
      (run_traversal site codes).counter % BATCH_SIZE ∧
    (run_traversal site codes).flushed.length =
      (run_traversal site codes).counter / BATCH_SIZE ∧
    (∀ (st : ScrapeState) (r : CourseRecord), st.batch.length < BATCH_SIZE →
      (stage st r).batch.length ≤ BATCH_SIZE) ∧
    ((run_traversal site codes).counter % BATCH_SIZE = 0 →
      run_main site codes = run_traversal site codes) ∧
    ((run_traversal site codes).counter % BATCH_SIZE ≠ 0 →
      (run_main site codes).flushed =
        insert_courses (run_traversal site codes).flushed
          (run_traversal site codes).batch ∧
      (run_traversal site codes).batch.length =
        (run_traversal site codes).counter % BATCH_SIZE) ∧
    ((run_traversal site codes).flushed = [] →
      (run_traversal site codes).batch.length = (run_traversal site codes).counter) := by
  obtain ⟨h1, h2, h3⟩ := run_traversal_inv site codes
  simp only [BATCH_SIZE] at h1 h3
  have hmod : (run_traversal site codes).batch.length =
      (run_traversal site codes).counter % 100 := by omega
  have hdiv : (run_traversal site codes).flushed.length =
      (run_traversal site codes).counter / 100 := by omega
  refine ⟨h2, ?_, ?_, ?_, ?_, ?_, ?_⟩
  · simp only [BATCH_SIZE]
    exact hmod
  · simp only [BATCH_SIZE]
    exact hdiv
  · intro st r hlt
    by_cases hm : r.code ∈ st.existing_codes
    · rw [stage_mem st r hm]; omega
    · rw [stage_not_mem st r hm]; simp; omega
  · intro h0
    simp only [BATCH_SIZE] at h0
    have hb : (run_traversal site codes).batch = [] :=
      List.length_eq_zero.mp (by omega)
    show flush_remainder (run_traversal site codes) = run_traversal site codes
    unfold flush_remainder
    rw [if_pos hb]
  · intro h0
    simp only [BATCH_SIZE] at h0
    have hb : (run_traversal site codes).batch ≠ [] := by
      intro hnil
      rw [hnil] at hmod
      simp at hmod
      omega
    constructor
    · show (flush_remainder (run_traversal site codes)).flushed = _
      unfold flush_remainder
      rw [if_neg hb]
    · simp only [BATCH_SIZE]
      exact hmod
  · intro hfl
    rw [hfl] at h3
    simp at h3
    omega

/-- Witness for C2 on the scenario site with an empty store: two records
are staged, no in-traversal flush happens, and the final flush inserts
exactly the two-record remainder. -/
theorem batch_flush_discipline_witness :
    (run_main demo_site []).flushed =
      insert_courses (run_traversal demo_site []).flushed
        (run_traversal demo_site []).batch ∧
    (stage ⟨0, [], [], []⟩ (extract_course_info math200)).batch.length ≤ BATCH_SIZE :=
  ⟨((batch_flush_discipline demo_site []).2.2.2.2.2.1 (by decide)).1,
   (batch_flush_discipline demo_site []).2.2.2.1 ⟨0, [], [], []⟩
     (extract_course_info math200) (by decide)⟩

/-- C3: a second run against an unchanged site whose store already holds
every code the traversal yields stages zero records — the counter stays
0, nothing is ever appended to the batch, and no insert is performed. -/
theorem second_run_stages_nothing (site : Site) (codes : List String)
    (h : ∀ c ∈ all_codes site, c ∈ codes) :
    run_main site codes = ⟨0, [], codes, []⟩ := by
  have key : run_traversal site codes = ⟨0, [], codes, []⟩ := by
    show (fetch_category_links site.base).foldl
        (fun s u => process_category site s (site.catAt u)) ⟨0, [], codes, []⟩ =
      ⟨0, [], codes, []⟩
    refine foldl_pres_mem (fun st => st = ⟨0, [], codes, []⟩)
      (fun s u => process_category site s (site.catAt u))
      (fetch_category_links site.base) ?_ _ rfl
    intro st u hu hst
    subst hst
    show process_category site ⟨0, [], codes, []⟩ (site.catAt u) = ⟨0, [], codes, []⟩
    unfold process_category
    cases hfs : fetch_subject_links (site.catAt u) with
    | error e => rfl
    | ok urls =>
      show urls.foldl (fun s v => process_subject s (site.subjAt v)) ⟨0, [], codes, []⟩ =
        ⟨0, [], codes, []⟩
      refine foldl_pres_mem (fun st => st = ⟨0, [], codes, []⟩)
        (fun s v => process_subject s (site.subjAt v)) urls ?_ _ rfl
      intro st v hv hst
      subst hst
      show process_subject ⟨0, [], codes, []⟩ (site.subjAt v) = ⟨0, [], codes, []⟩
      unfold process_subject
      cases hfc : fetch_courses (site.subjAt v) with
      | error e => rfl
      | ok cs =>
        show (if cs = [] then (⟨0, [], codes, []⟩ : ScrapeState)
            else List.foldl process_course ⟨0, [], codes, []⟩ cs) = ⟨0, [], codes, []⟩
        by_cases hcs : cs = []
        · rw [if_pos hcs]
        · rw [if_neg hcs]
          refine foldl_pres_mem (fun st => st = ⟨0, [], codes, []⟩)
            process_course cs ?_ _ rfl
          intro st c hc hst
          subst hst
          have hmem_subj : (extract_course_info c).code ∈ subject_codes (site.subjAt v) := by
            unfold subject_codes
            rw [hfc]
            exact List.mem_map_of_mem _ hc
          have hmem_cat : (extract_course_info c).code ∈
              category_codes site (site.catAt u) := by
            unfold category_codes
            rw [hfs]
            exact mem_foldr_append (fun w => subject_codes (site.subjAt w)) urls v _
              hv hmem_subj
          have hmem_all : (extract_course_info c).code ∈ all_codes site := by
            unfold all_codes
            exact mem_foldr_append (fun w => category_codes site (site.catAt w)) _ u _
              hu hmem_cat
          exact process_course_noop _ _ (h _ hmem_all) rfl
  show flush_remainder (run_traversal site codes) = _
  rw [key]
  rfl

/-- Witness for C3: on the scenario site, a store already holding both
codes makes the run a no-op. -/
theorem second_run_stages_nothing_witness :
    run_main demo_site ["CS 101", "MATH 200"] = ⟨0, [], ["CS 101", "MATH 200"], []⟩ :=
  second_run_stages_nothing demo_site _ (by decide)

/-- C10: a request error on the initial GET of the base URL is caught by
the category link fetcher, which returns an empty list; the run then
completes with zero records staged and zero inserts, exactly as it would
against a successfully fetched catalog with no categories. -/
theorem base_request_error_empty_run (site : Site) (codes : List String)
    (h : site.base.httpError = true) :
    fetch_category_links site.base = [] ∧
    run_main site codes = ⟨0, [], codes, []⟩ ∧
    run_main site codes = run_main ⟨⟨false, some []⟩, site.catAt, site.subjAt⟩ codes := by
  have hempty : fetch_category_links site.base = [] := by
    simp [fetch_category_links, h]
  have hrun : run_main site codes = ⟨0, [], codes, []⟩ := by
    unfold run_main run_traversal
    rw [hempty]
    rfl
  refine ⟨hempty, hrun, ?_⟩
  rw [hrun]
  rfl

/-- Witness for C10 on a site whose base GET fails. -/
theorem base_request_error_empty_run_witness :
    fetch_category_links dead_site.base = [] ∧
    run_main dead_site ["X"] = ⟨0, [], ["X"], []⟩ :=
  ⟨(base_request_error_empty_run dead_site ["X"] rfl).1,
   (base_request_error_empty_run dead_site ["X"] rfl).2.1⟩

/-- Witness for C1: the concrete count, and the two staging behaviors at
concrete states — the duplicate "CS 101" record is skipped, the fresh
"MATH 200" record is appended and recorded as known. -/
theorem one_new_record_staged_witness :
    (run_traversal demo_site ["CS 101"]).counter = 1 ∧
    stage ⟨0, [], ["CS 101"], []⟩ (extract_course_info cs101_dup) =
      ⟨0, [], ["CS 101"], []⟩ ∧
    stage ⟨0, [], ["CS 101"], []⟩ (extract_course_info math200) =
      ⟨1, [extract_course_info math200], ["MATH 200", "CS 101"], []⟩ := by
  refine ⟨one_new_record_staged.1, ?_, ?_⟩
  · exact one_new_record_staged.2.2.2.1 _ _ (by decide)
  · exact one_new_record_staged.2.2.2.2 ⟨0, [], ["CS 101"], []⟩
      (extract_course_info math200) (by decide)
